import Mathlib

/-!
# Verification of the S2BUL_24 backend statistics aggregator

Shallow embedding of the movie-rating backend's statistics aggregation
(`app/routes/statistics.py`), the lightweight rating summary and the
create-or-update rating operation (`app/routes/ratings.py`), over the
relational data model of `app/models/{movie,user,rating}.py`.

The store is a triple of lists (movies, users, ratings).  SQL aggregate
queries are embedded as list operations; SQL's three-valued logic on
nullable columns is reproduced by the `Option`-aware predicates: a
comparison against a NULL column is not true, so the corresponding
`CASE WHEN ... THEN 1 ELSE 0` contributes 0, and `SUM` over an empty row
set is NULL (here `Option.none`), turned into 0 by the route's `or 0`.
-/

/-- Model of `app/models/movie.py` — only the identity matters for the claims. -/
structure Movie where
  id : String
deriving DecidableEq, Repr

/-- Model of `app/models/user.py` — demographic columns are nullable. -/
structure User where
  id : String
  age : Option Int
  gender : Option String
  country : Option String
  continent : Option String
deriving DecidableEq, Repr

/-- Model of `app/models/rating.py` — a score a user gave a movie. -/
structure Rating where
  id : String
  movie_id : String
  user_id : String
  score : Int
deriving DecidableEq, Repr

/-- The relational store the routes read and write. -/
structure DB where
  movies : List Movie
  users : List User
  ratings : List Rating
deriving DecidableEq, Repr

/-- Error value of `fastapi.HTTPException` as raised by the routes. -/
structure HTTPException where
  status_code : Nat
  detail : String
deriving DecidableEq, Repr

/-- Response schema `AgeStatistics` (`app/schemas/statistics.py`). -/
structure AgeStatistics where
  under18 : Nat
  age18to24 : Nat
  age25to34 : Nat
  age35to44 : Nat
  age45to54 : Nat
  age55plus : Nat
deriving DecidableEq, Repr

/-- Response schema `GenderStatistics` (`app/schemas/statistics.py`). -/
structure GenderStatistics where
  male : Nat
  female : Nat
  other : Nat
  not_specified : Nat
deriving DecidableEq, Repr

/-- Response schema `ContinentStatistics` (`app/schemas/statistics.py`). -/
structure ContinentStatistics where
  africa : Nat
  asia : Nat
  europe : Nat
  north_america : Nat
  south_america : Nat
  australia : Nat
  antarctica : Nat
deriving DecidableEq, Repr

/-- Response schema `MovieStatistics` (`app/schemas/statistics.py`);
`country_statistics` is the insertion-ordered dict built by the route,
kept as an association list. -/
structure MovieStatistics where
  movie_id : String
  average_rating : Rat
  total_ratings : Nat
  age_statistics : AgeStatistics
  gender_statistics : GenderStatistics
  continent_statistics : ContinentStatistics
  country_statistics : List (String × Nat)
deriving DecidableEq, Repr

/-- Response schema `MovieRating` (`app/schemas/rating.py`), returned by
`GET /ratings/movie/{movie_id}/stats`. -/
structure MovieRating where
  movie_id : String
  average_score : Rat
  total_ratings : Nat
deriving DecidableEq, Repr

/-- Query `db.query(Rating).filter(Rating.movie_id == movie_id)`. -/
def movieRatings (db : DB) (movie_id : String) : List Rating :=
  db.ratings.filter (fun r => r.movie_id == movie_id)

/-- The join `User ⋈ Rating` on `Rating.user_id == User.id`, filtered to
`Rating.movie_id == movie_id`: the row multiset every demographic query of
`get_movie_statistics` aggregates over. -/
def raterRows (db : DB) (movie_id : String) : List (Rating × User) :=
  (movieRatings db movie_id).flatMap (fun r =>
    (db.users.filter (fun u => u.id == r.user_id)).map (fun u => (r, u)))

/-- SQL `AVG(score)`: NULL over an empty row set, otherwise the exact mean. -/
def sqlAvg (scores : List Int) : Option Rat :=
  if scores.length = 0 then none
  else some ((scores.sum : Rat) / (scores.length : Rat))

/-- SQL `SUM(CASE WHEN p THEN 1 ELSE 0 END)`: NULL over an empty row set,
otherwise the number of rows where the condition is (three-valued) true. -/
def sumCase (rows : List (Rating × User)) (p : Rating × User → Bool) : Option Nat :=
  if rows.isEmpty then none else some (rows.countP p)

/-- Python `x or 0` applied to a nullable aggregate count. -/
def orZero (x : Option Nat) : Nat := x.getD 0

/-- Python `float(x or 0)` applied to the nullable average (a falsy `0.0`
is replaced by the equal integer `0`). -/
def floatOrZero (x : Option Rat) : Rat :=
  match x with
  | none => 0
  | some v => if v == 0 then 0 else v

/-- Three-valued `User.age < n`: NULL age compares to NULL, not true. -/
def ageLt (a : Option Int) (n : Int) : Bool :=
  match a with
  | some x => x < n
  | none => false

/-- Three-valued `AND(User.age >= lo, User.age <= hi)`. -/
def ageBetween (a : Option Int) (lo hi : Int) : Bool :=
  match a with
  | some x => lo ≤ x && x ≤ hi
  | none => false

/-- Three-valued `User.age >= n`. -/
def ageGe (a : Option Int) (n : Int) : Bool :=
  match a with
  | some x => n ≤ x
  | none => false

/-- The `not_specified` gender condition of the source:
`or_(and_(gender != "male", gender != "female", gender != "other"), gender == None)`.
A NULL gender makes the `and_` NULL but the `IS NULL` branch true. -/
def genderNotSpecified (g : Option String) : Bool :=
  match g with
  | none => true
  | some s => s != "male" && s != "female" && s != "other"

/-- The grouped query
`SELECT country, COUNT(rating.id) ... WHERE country IS NOT NULL GROUP BY country`. -/
def country_stats_query (db : DB) (movie_id : String) : List (String × Nat) :=
  let rows := (raterRows db movie_id).filter (fun ru => ru.2.country.isSome)
  let keys := (rows.filterMap (fun ru => ru.2.country)).dedup
  keys.map (fun c => (c, rows.countP (fun ru => ru.2.country == some c)))

/-- The route's dict-building loop: `if country:` drops a falsy (empty) key. -/
def buildCountryStats (q : List (String × Nat)) : List (String × Nat) :=
  q.filter (fun p => p.1 != "")

/-- Endpoint `GET /statistics/movie/{movie_id}` (`get_movie_statistics` in
`app/routes/statistics.py`): 404 when the movie does not exist, otherwise
the aggregated `MovieStatistics` body. -/
def get_movie_statistics (db : DB) (movie_id : String) :
    Except HTTPException MovieStatistics :=
  match db.movies.find? (fun m => m.id == movie_id) with
  | none => .error ⟨404, "Movie not found"⟩
  | some _ =>
    let mr := movieRatings db movie_id
    let rows := raterRows db movie_id
    .ok {
      movie_id := movie_id
      average_rating := floatOrZero (sqlAvg (mr.map (fun r => r.score)))
      total_ratings := mr.length
      age_statistics := {
        under18 := orZero (sumCase rows (fun ru => ageLt ru.2.age 18))
        age18to24 := orZero (sumCase rows (fun ru => ageBetween ru.2.age 18 24))
        age25to34 := orZero (sumCase rows (fun ru => ageBetween ru.2.age 25 34))
        age35to44 := orZero (sumCase rows (fun ru => ageBetween ru.2.age 35 44))
        age45to54 := orZero (sumCase rows (fun ru => ageBetween ru.2.age 45 54))
        age55plus := orZero (sumCase rows (fun ru => ageGe ru.2.age 55)) }
      gender_statistics := {
        male := orZero (sumCase rows (fun ru => ru.2.gender == some "male"))
        female := orZero (sumCase rows (fun ru => ru.2.gender == some "female"))
        other := orZero (sumCase rows (fun ru => ru.2.gender == some "other"))
        not_specified := orZero (sumCase rows (fun ru => genderNotSpecified ru.2.gender)) }
      continent_statistics := {
        africa := orZero (sumCase rows (fun ru => ru.2.continent == some "africa"))
        asia := orZero (sumCase rows (fun ru => ru.2.continent == some "asia"))
        europe := orZero (sumCase rows (fun ru => ru.2.continent == some "europe"))
        north_america := orZero (sumCase rows (fun ru => ru.2.continent == some "north_america"))
        south_america := orZero (sumCase rows (fun ru => ru.2.continent == some "south_america"))
        australia := orZero (sumCase rows (fun ru => ru.2.continent == some "australia"))
        antarctica := orZero (sumCase rows (fun ru => ru.2.continent == some "antarctica")) }
      country_statistics := buildCountryStats (country_stats_query db movie_id) }

/-- Endpoint `GET /ratings/movie/{movie_id}/stats` (`get_movie_rating_stats` in
`app/routes/ratings.py`). -/
def get_movie_rating_stats (db : DB) (movie_id : String) :
    Except HTTPException MovieRating :=
  match db.movies.find? (fun m => m.id == movie_id) with
  | none => .error ⟨404, "Movie not found"⟩
  | some _ =>
    let mr := movieRatings db movie_id
    .ok {
      movie_id := movie_id
      average_score := floatOrZero (sqlAvg (mr.map (fun r => r.score)))
      total_ratings := mr.length }

/-- Request schema `RatingCreate` (`app/schemas/rating.py`). -/
structure RatingCreate where
  movie_id : String
  score : Int
deriving DecidableEq, Repr

/-- Endpoint `POST /ratings/` (`create_or_update_rating` in `app/routes/ratings.py`).
`freshId` stands for the `uuid.uuid4()` primary key of a newly inserted row.
Returns the new store together with the created or updated rating. -/
def create_or_update_rating (db : DB) (rating_in : RatingCreate)
    (current_user_id : String) (freshId : String) :
    Except HTTPException (DB × Rating) :=
  match db.movies.find? (fun m => m.id == rating_in.movie_id) with
  | none => .error ⟨404, "Movie not found"⟩
  | some _ =>
    match db.ratings.find? (fun r =>
        r.movie_id == rating_in.movie_id && r.user_id == current_user_id) with
    | some existing =>
      let updated : Rating := { existing with score := rating_in.score }
      .ok ({ db with ratings :=
               db.ratings.map (fun r => if r.id == existing.id then updated else r) },
           updated)
    | none =>
      let r : Rating := {
        id := freshId
        movie_id := rating_in.movie_id
        user_id := current_user_id
        score := rating_in.score }
      .ok ({ db with ratings := db.ratings ++ [r] }, r)

/-- Check `db.query(Movie).filter(Movie.id == movie_id).first()` is not `None`. -/
def movieExists (db : DB) (movie_id : String) : Bool :=
  (db.movies.find? (fun m => m.id == movie_id)).isSome

/-! ## Basic lemmas about the embedded SQL aggregates -/

/-- SQL `SUM(CASE ...)` followed by `or 0` is the plain row count of the condition. -/
theorem orZero_sumCase (rows : List (Rating × User)) (p : Rating × User → Bool) :
    orZero (sumCase rows p) = rows.countP p := by
  cases rows <;> rfl

/-- Python `float(x or 0)` on a present average is the average itself (a falsy
`0.0` is replaced by the equal value `0`). -/
theorem floatOrZero_some (v : Rat) : floatOrZero (some v) = v := by
  show (if v == 0 then (0 : Rat) else v) = v
  rcases eq_or_ne v 0 with h | h
  · simp [h]
  · simp [h]

/-- The successful branch of `get_movie_statistics`, with every aggregate
rewritten to a direct count over the joined rows. -/
theorem get_movie_statistics_ok (db : DB) (movie_id : String)
    (h : movieExists db movie_id = true) :
    get_movie_statistics db movie_id = .ok {
      movie_id := movie_id
      average_rating := floatOrZero (sqlAvg ((movieRatings db movie_id).map (fun r => r.score)))
      total_ratings := (movieRatings db movie_id).length
      age_statistics := {
        under18 := (raterRows db movie_id).countP (fun ru => ageLt ru.2.age 18)
        age18to24 := (raterRows db movie_id).countP (fun ru => ageBetween ru.2.age 18 24)
        age25to34 := (raterRows db movie_id).countP (fun ru => ageBetween ru.2.age 25 34)
        age35to44 := (raterRows db movie_id).countP (fun ru => ageBetween ru.2.age 35 44)
        age45to54 := (raterRows db movie_id).countP (fun ru => ageBetween ru.2.age 45 54)
        age55plus := (raterRows db movie_id).countP (fun ru => ageGe ru.2.age 55) }
      gender_statistics := {
        male := (raterRows db movie_id).countP (fun ru => ru.2.gender == some "male")
        female := (raterRows db movie_id).countP (fun ru => ru.2.gender == some "female")
        other := (raterRows db movie_id).countP (fun ru => ru.2.gender == some "other")
        not_specified := (raterRows db movie_id).countP (fun ru => genderNotSpecified ru.2.gender) }
      continent_statistics := {
        africa := (raterRows db movie_id).countP (fun ru => ru.2.continent == some "africa")
        asia := (raterRows db movie_id).countP (fun ru => ru.2.continent == some "asia")
        europe := (raterRows db movie_id).countP (fun ru => ru.2.continent == some "europe")
        north_america := (raterRows db movie_id).countP (fun ru => ru.2.continent == some "north_america")
        south_america := (raterRows db movie_id).countP (fun ru => ru.2.continent == some "south_america")
        australia := (raterRows db movie_id).countP (fun ru => ru.2.continent == some "australia")
        antarctica := (raterRows db movie_id).countP (fun ru => ru.2.continent == some "antarctica") }
      country_statistics := buildCountryStats (country_stats_query db movie_id) } := by
  unfold movieExists at h
  unfold get_movie_statistics
  cases hf : db.movies.find? (fun m => m.id == movie_id) with
  | none => rw [hf] at h; simp at h
  | some m => simp [orZero_sumCase]

/-- Example store: one movie, one rater. -/
def exMovie : Movie := ⟨"m1"⟩

/-- Example rater with full demographics. -/
def exUser1 : User := ⟨"u1", some 30, some "male", some "TestCountry", some "europe"⟩

/-- Example rating of `exMovie` by `exUser1`. -/
def exRating1 : Rating := ⟨"r1", "m1", "u1", 10⟩

/-- Example store used by the witnesses. -/
def exDB : DB := ⟨[exMovie], [exUser1], [exRating1]⟩

/-- C1: querying statistics for a movie id with no matching `Movie` signals
404 "Movie not found" and returns no result, for every store state; for an
existing movie the call returns a full `MovieStatistics` and no error. -/
theorem computeStatistics_notFound_iff_missing (db : DB) (movie_id : String) :
    (movieExists db movie_id = false →
      get_movie_statistics db movie_id = .error ⟨404, "Movie not found"⟩)
    ∧ (movieExists db movie_id = true →
      ∃ ms : MovieStatistics, get_movie_statistics db movie_id = .ok ms) := by
  constructor
  · intro h
    unfold movieExists at h
    unfold get_movie_statistics
    cases hf : db.movies.find? (fun m => m.id == movie_id) with
    | none => rfl
    | some m => rw [hf] at h; simp at h
  · intro h
    exact ⟨_, get_movie_statistics_ok db movie_id h⟩

/-- Witness for C1 at concrete stores: the empty store rejects `"m1"`,
`exDB` answers it. -/
theorem computeStatistics_notFound_iff_missing_witness :
    get_movie_statistics ⟨[], [], []⟩ "m1" = .error ⟨404, "Movie not found"⟩
    ∧ ∃ ms : MovieStatistics, get_movie_statistics exDB "m1" = .ok ms :=
  ⟨(computeStatistics_notFound_iff_missing ⟨[], [], []⟩ "m1").1 (by decide),
   (computeStatistics_notFound_iff_missing exDB "m1").2 (by decide)⟩

/-- C2: for an existing movie, `total_ratings` is the number of `Rating`
rows referencing it, and `average_rating` is the exact mean of their scores
when there is at least one, and `0` when there are none. -/
theorem computeStatistics_average_total (db : DB) (movie_id : String)
    (h : movieExists db movie_id = true) :
    ∃ ms : MovieStatistics, get_movie_statistics db movie_id = .ok ms
      ∧ ms.total_ratings = (movieRatings db movie_id).length
      ∧ (ms.total_ratings = 0 → ms.average_rating = 0)
      ∧ (0 < ms.total_ratings →
          ms.average_rating
            = ((((movieRatings db movie_id).map (fun r => r.score)).sum : Int) : Rat)
              / ((movieRatings db movie_id).length : Rat)) := by
  refine ⟨_, get_movie_statistics_ok db movie_id h, rfl, ?_, ?_⟩
  · intro h0
    simp only at h0
    show floatOrZero (sqlAvg ((movieRatings db movie_id).map (fun r => r.score))) = 0
    unfold sqlAvg
    rw [if_pos]
    · rfl
    · simpa using h0
  · intro h0
    simp only at h0
    show floatOrZero (sqlAvg ((movieRatings db movie_id).map (fun r => r.score)))
      = ((((movieRatings db movie_id).map (fun r => r.score)).sum : Int) : Rat)
        / ((movieRatings db movie_id).length : Rat)
    unfold sqlAvg
    rw [if_neg]
    · rw [floatOrZero_some, List.length_map]
    · rw [List.length_map]
      omega

/-- Witness for C2 at `exDB`. -/
theorem computeStatistics_average_total_witness :
    ∃ ms : MovieStatistics, get_movie_statistics exDB "m1" = .ok ms
      ∧ ms.total_ratings = (movieRatings exDB "m1").length
      ∧ (ms.total_ratings = 0 → ms.average_rating = 0)
      ∧ (0 < ms.total_ratings →
          ms.average_rating
            = ((((movieRatings exDB "m1").map (fun r => r.score)).sum : Int) : Rat)
              / ((movieRatings exDB "m1").length : Rat)) :=
  computeStatistics_average_total exDB "m1" (by decide)

/-! ## Bucket classification lemmas -/

/-- The source's `not_specified` condition is exactly the complement of the
three exact matches, on every (possibly null) gender value. -/
theorem genderNotSpecified_eq (g : Option String) :
    genderNotSpecified g
      = !(g == some "male" || g == some "female" || g == some "other") := by
  cases g with
  | none => rfl
  | some s =>
    show (s != "male" && s != "female" && s != "other") = _
    simp [Bool.not_or, Bool.and_assoc, bne]

/-- Each gender value falls in exactly one of the four buckets. -/
theorem gender_partition (g : Option String) :
    (if g == some "male" then 1 else 0) + (if g == some "female" then 1 else 0)
      + (if g == some "other" then 1 else 0)
      + (if genderNotSpecified g then 1 else 0) = 1 := by
  cases g with
  | none => rfl
  | some s =>
    rcases eq_or_ne s "male" with h1 | h1
    · simp [h1, genderNotSpecified]
    · rcases eq_or_ne s "female" with h2 | h2
      · simp [h2, genderNotSpecified]
      · rcases eq_or_ne s "other" with h3 | h3
        · simp [h3, genderNotSpecified]
        · simp [h1, h2, h3, genderNotSpecified]

/-- The four gender buckets sum to the number of joined rows. -/
theorem genderSum_eq_length (rows : List (Rating × User)) :
    rows.countP (fun ru => ru.2.gender == some "male")
      + rows.countP (fun ru => ru.2.gender == some "female")
      + rows.countP (fun ru => ru.2.gender == some "other")
      + rows.countP (fun ru => genderNotSpecified ru.2.gender) = rows.length := by
  induction rows with
  | nil => rfl
  | cons ru rest ih =>
    simp only [List.countP_cons, List.length_cons]
    have h := gender_partition ru.2.gender
    omega

/-- Each defined age falls in exactly one of the six ranges; a null age in
none. -/
theorem age_partition (a : Option Int) :
    (if ageLt a 18 then 1 else 0) + (if ageBetween a 18 24 then 1 else 0)
      + (if ageBetween a 25 34 then 1 else 0) + (if ageBetween a 35 44 then 1 else 0)
      + (if ageBetween a 45 54 then 1 else 0) + (if ageGe a 55 then 1 else 0)
      = (if a.isSome then 1 else 0) := by
  cases a with
  | none => rfl
  | some x =>
    simp only [ageLt, ageBetween, ageGe, Option.isSome_some, if_true,
      Bool.and_eq_true, decide_eq_true_eq]
    split_ifs <;> omega

/-- The six age buckets sum to the number of rows with a defined age. -/
theorem ageSum_eq_countDefined (rows : List (Rating × User)) :
    rows.countP (fun ru => ageLt ru.2.age 18)
      + rows.countP (fun ru => ageBetween ru.2.age 18 24)
      + rows.countP (fun ru => ageBetween ru.2.age 25 34)
      + rows.countP (fun ru => ageBetween ru.2.age 35 44)
      + rows.countP (fun ru => ageBetween ru.2.age 45 54)
      + rows.countP (fun ru => ageGe ru.2.age 55)
      = rows.countP (fun ru => ru.2.age.isSome) := by
  induction rows with
  | nil => rfl
  | cons ru rest ih =>
    simp only [List.countP_cons]
    have h := age_partition ru.2.age
    omega

/-- The seven continent names of the aggregation. -/
def continentNames : List String :=
  ["africa", "asia", "europe", "north_america", "south_america", "australia", "antarctica"]

/-- Each continent value matching one of the seven names falls in exactly
that bucket; any other value (null included) in none. -/
theorem continent_partition (c : Option String) :
    (if c == some "africa" then 1 else 0) + (if c == some "asia" then 1 else 0)
      + (if c == some "europe" then 1 else 0) + (if c == some "north_america" then 1 else 0)
      + (if c == some "south_america" then 1 else 0) + (if c == some "australia" then 1 else 0)
      + (if c == some "antarctica" then 1 else 0)
      = (if c.any (fun s => continentNames.contains s) then 1 else 0) := by
  cases c with
  | none => rfl
  | some s =>
    simp only [Option.any_some, Option.some_beq_some]
    by_cases h1 : s = "africa"
    · simp [h1, continentNames]
    · by_cases h2 : s = "asia"
      · simp [h2, continentNames]
      · by_cases h3 : s = "europe"
        · simp [h3, continentNames]
        · by_cases h4 : s = "north_america"
          · simp [h4, continentNames]
          · by_cases h5 : s = "south_america"
            · simp [h5, continentNames]
            · by_cases h6 : s = "australia"
              · simp [h6, continentNames]
              · by_cases h7 : s = "antarctica"
                · simp [h7, continentNames]
                · simp [h1, h2, h3, h4, h5, h6, h7, continentNames]

/-- The seven continent buckets sum to the number of rows whose continent
is one of the seven names. -/
theorem continentSum_eq_countListed (rows : List (Rating × User)) :
    rows.countP (fun ru => ru.2.continent == some "africa")
      + rows.countP (fun ru => ru.2.continent == some "asia")
      + rows.countP (fun ru => ru.2.continent == some "europe")
      + rows.countP (fun ru => ru.2.continent == some "north_america")
      + rows.countP (fun ru => ru.2.continent == some "south_america")
      + rows.countP (fun ru => ru.2.continent == some "australia")
      + rows.countP (fun ru => ru.2.continent == some "antarctica")
      = rows.countP (fun ru => ru.2.continent.any (fun s => continentNames.contains s)) := by
  induction rows with
  | nil => rfl
  | cons ru rest ih =>
    simp only [List.countP_cons]
    have h := continent_partition ru.2.continent
    omega

/-- C3: gender buckets count exact case-sensitive matches of "male",
"female", "other"; `not_specified` counts null and every other string; the
four buckets partition the movie's raters. -/
theorem genderStatistics_classification (db : DB) (movie_id : String)
    (h : movieExists db movie_id = true) :
    ∃ ms : MovieStatistics, get_movie_statistics db movie_id = .ok ms
      ∧ ms.gender_statistics.male
          = (raterRows db movie_id).countP (fun ru => ru.2.gender == some "male")
      ∧ ms.gender_statistics.female
          = (raterRows db movie_id).countP (fun ru => ru.2.gender == some "female")
      ∧ ms.gender_statistics.other
          = (raterRows db movie_id).countP (fun ru => ru.2.gender == some "other")
      ∧ ms.gender_statistics.not_specified
          = (raterRows db movie_id).countP (fun ru =>
              !(ru.2.gender == some "male" || ru.2.gender == some "female"
                || ru.2.gender == some "other"))
      ∧ ms.gender_statistics.male + ms.gender_statistics.female
          + ms.gender_statistics.other + ms.gender_statistics.not_specified
          = (raterRows db movie_id).length := by
  refine ⟨_, get_movie_statistics_ok db movie_id h, rfl, rfl, rfl, ?_, ?_⟩
  · show (raterRows db movie_id).countP (fun ru => genderNotSpecified ru.2.gender) = _
    exact List.countP_congr (fun ru _ => by rw [genderNotSpecified_eq])
  · exact genderSum_eq_length (raterRows db movie_id)

/-- Witness for C3 at `exDB`. -/
theorem genderStatistics_classification_witness :
    ∃ ms : MovieStatistics, get_movie_statistics exDB "m1" = .ok ms
      ∧ ms.gender_statistics.male
          = (raterRows exDB "m1").countP (fun ru => ru.2.gender == some "male")
      ∧ ms.gender_statistics.female
          = (raterRows exDB "m1").countP (fun ru => ru.2.gender == some "female")
      ∧ ms.gender_statistics.other
          = (raterRows exDB "m1").countP (fun ru => ru.2.gender == some "other")
      ∧ ms.gender_statistics.not_specified
          = (raterRows exDB "m1").countP (fun ru =>
              !(ru.2.gender == some "male" || ru.2.gender == some "female"
                || ru.2.gender == some "other"))
      ∧ ms.gender_statistics.male + ms.gender_statistics.female
          + ms.gender_statistics.other + ms.gender_statistics.not_specified
          = (raterRows exDB "m1").length :=
  genderStatistics_classification exDB "m1" (by decide)

/-- C4: the six age buckets count the raters whose (defined) age lies in
the respective range; they partition the raters with a defined age, so a
rater with a null age is counted in none of them. -/
theorem ageStatistics_buckets (db : DB) (movie_id : String)
    (h : movieExists db movie_id = true) :
    ∃ ms : MovieStatistics, get_movie_statistics db movie_id = .ok ms
      ∧ ms.age_statistics.under18
          = (raterRows db movie_id).countP (fun ru => ru.2.age.any (fun a => a < 18))
      ∧ ms.age_statistics.age18to24
          = (raterRows db movie_id).countP (fun ru => ru.2.age.any (fun a => 18 ≤ a && a ≤ 24))
      ∧ ms.age_statistics.age25to34
          = (raterRows db movie_id).countP (fun ru => ru.2.age.any (fun a => 25 ≤ a && a ≤ 34))
      ∧ ms.age_statistics.age35to44
          = (raterRows db movie_id).countP (fun ru => ru.2.age.any (fun a => 35 ≤ a && a ≤ 44))
      ∧ ms.age_statistics.age45to54
          = (raterRows db movie_id).countP (fun ru => ru.2.age.any (fun a => 45 ≤ a && a ≤ 54))
      ∧ ms.age_statistics.age55plus
          = (raterRows db movie_id).countP (fun ru => ru.2.age.any (fun a => 55 ≤ a))
      ∧ ms.age_statistics.under18 + ms.age_statistics.age18to24
          + ms.age_statistics.age25to34 + ms.age_statistics.age35to44
          + ms.age_statistics.age45to54 + ms.age_statistics.age55plus
          = (raterRows db movie_id).countP (fun ru => ru.2.age.isSome) := by
  refine ⟨_, get_movie_statistics_ok db movie_id h, ?_, ?_, ?_, ?_, ?_, ?_, ?_⟩
  · exact List.countP_congr (fun ru _ => by cases ru.2.age <;> rfl)
  · exact List.countP_congr (fun ru _ => by cases ru.2.age <;> rfl)
  · exact List.countP_congr (fun ru _ => by cases ru.2.age <;> rfl)
  · exact List.countP_congr (fun ru _ => by cases ru.2.age <;> rfl)
  · exact List.countP_congr (fun ru _ => by cases ru.2.age <;> rfl)
  · exact List.countP_congr (fun ru _ => by cases ru.2.age <;> rfl)
  · exact ageSum_eq_countDefined (raterRows db movie_id)

/-- Witness for C4 at `exDB`. -/
theorem ageStatistics_buckets_witness :
    ∃ ms : MovieStatistics, get_movie_statistics exDB "m1" = .ok ms
      ∧ ms.age_statistics.under18
          = (raterRows exDB "m1").countP (fun ru => ru.2.age.any (fun a => a < 18))
      ∧ ms.age_statistics.age18to24
          = (raterRows exDB "m1").countP (fun ru => ru.2.age.any (fun a => 18 ≤ a && a ≤ 24))
      ∧ ms.age_statistics.age25to34
          = (raterRows exDB "m1").countP (fun ru => ru.2.age.any (fun a => 25 ≤ a && a ≤ 34))
      ∧ ms.age_statistics.age35to44
          = (raterRows exDB "m1").countP (fun ru => ru.2.age.any (fun a => 35 ≤ a && a ≤ 44))
      ∧ ms.age_statistics.age45to54
          = (raterRows exDB "m1").countP (fun ru => ru.2.age.any (fun a => 45 ≤ a && a ≤ 54))
      ∧ ms.age_statistics.age55plus
          = (raterRows exDB "m1").countP (fun ru => ru.2.age.any (fun a => 55 ≤ a))
      ∧ ms.age_statistics.under18 + ms.age_statistics.age18to24
          + ms.age_statistics.age25to34 + ms.age_statistics.age35to44
          + ms.age_statistics.age45to54 + ms.age_statistics.age55plus
          = (raterRows exDB "m1").countP (fun ru => ru.2.age.isSome) :=
  ageStatistics_buckets exDB "m1" (by decide)

/-- C5: each continent bucket counts exact matches of its name; the seven
buckets together count exactly the raters whose continent is one of the
seven names, so null or other values contribute to none. -/
theorem continentStatistics_buckets (db : DB) (movie_id : String)
    (h : movieExists db movie_id = true) :
    ∃ ms : MovieStatistics, get_movie_statistics db movie_id = .ok ms
      ∧ ms.continent_statistics.africa
          = (raterRows db movie_id).countP (fun ru => ru.2.continent == some "africa")
      ∧ ms.continent_statistics.asia
          = (raterRows db movie_id).countP (fun ru => ru.2.continent == some "asia")
      ∧ ms.continent_statistics.europe
          = (raterRows db movie_id).countP (fun ru => ru.2.continent == some "europe")
      ∧ ms.continent_statistics.north_america
          = (raterRows db movie_id).countP (fun ru => ru.2.continent == some "north_america")
      ∧ ms.continent_statistics.south_america
          = (raterRows db movie_id).countP (fun ru => ru.2.continent == some "south_america")
      ∧ ms.continent_statistics.australia
          = (raterRows db movie_id).countP (fun ru => ru.2.continent == some "australia")
      ∧ ms.continent_statistics.antarctica
          = (raterRows db movie_id).countP (fun ru => ru.2.continent == some "antarctica")
      ∧ ms.continent_statistics.africa + ms.continent_statistics.asia
          + ms.continent_statistics.europe + ms.continent_statistics.north_america
          + ms.continent_statistics.south_america + ms.continent_statistics.australia
          + ms.continent_statistics.antarctica
          = (raterRows db movie_id).countP (fun ru =>
              ru.2.continent.any (fun s => continentNames.contains s)) := by
  refine ⟨_, get_movie_statistics_ok db movie_id h,
    rfl, rfl, rfl, rfl, rfl, rfl, rfl, ?_⟩
  exact continentSum_eq_countListed (raterRows db movie_id)

/-- Witness for C5 at `exDB`. -/
theorem continentStatistics_buckets_witness :
    ∃ ms : MovieStatistics, get_movie_statistics exDB "m1" = .ok ms
      ∧ ms.continent_statistics.africa
          = (raterRows exDB "m1").countP (fun ru => ru.2.continent == some "africa")
      ∧ ms.continent_statistics.asia
          = (raterRows exDB "m1").countP (fun ru => ru.2.continent == some "asia")
      ∧ ms.continent_statistics.europe
          = (raterRows exDB "m1").countP (fun ru => ru.2.continent == some "europe")
      ∧ ms.continent_statistics.north_america
          = (raterRows exDB "m1").countP (fun ru => ru.2.continent == some "north_america")
      ∧ ms.continent_statistics.south_america
          = (raterRows exDB "m1").countP (fun ru => ru.2.continent == some "south_america")
      ∧ ms.continent_statistics.australia
          = (raterRows exDB "m1").countP (fun ru => ru.2.continent == some "australia")
      ∧ ms.continent_statistics.antarctica
          = (raterRows exDB "m1").countP (fun ru => ru.2.continent == some "antarctica")
      ∧ ms.continent_statistics.africa + ms.continent_statistics.asia
          + ms.continent_statistics.europe + ms.continent_statistics.north_america
          + ms.continent_statistics.south_america + ms.continent_statistics.australia
          + ms.continent_statistics.antarctica
          = (raterRows exDB "m1").countP (fun ru =>
              ru.2.continent.any (fun s => continentNames.contains s)) :=
  continentStatistics_buckets exDB "m1" (by decide)

/-! ## Join cardinality under the schema constraints -/

/-- With pairwise-distinct user ids and a user carrying the id, the users
table filtered to that id is a single row. -/
theorem length_filter_userId (users : List User) (x : String)
    (hnd : users.Pairwise (fun a b => a.id ≠ b.id))
    (hex : ∃ u ∈ users, u.id = x) :
    (users.filter (fun u => u.id == x)).length = 1 := by
  induction users with
  | nil => simp at hex
  | cons u us ih =>
    rw [List.filter_cons]
    by_cases hu : u.id = x
    · have hnone : us.filter (fun v => v.id == x) = [] := by
        rw [List.filter_eq_nil_iff]
        intro v hv
        have hne := (List.pairwise_cons.mp hnd).1 v hv
        simp only [beq_iff_eq]
        intro hvx
        exact hne (hu.trans hvx.symm)
      simp [hu, hnone]
    · obtain ⟨v, hv, hvx⟩ := hex
      rcases List.mem_cons.mp hv with rfl | hv2
      · exact absurd hvx hu
      · have hb : (u.id == x) = false := by
          simp only [beq_eq_false_iff_ne, ne_eq]
          exact hu
        rw [hb]
        simp only [Bool.false_eq_true, if_false]
        exact ih (List.pairwise_cons.mp hnd).2 ⟨v, hv2, hvx⟩

/-- Under the schema constraints (unique user primary keys, every rating's
`user_id` a real user), the join produces exactly one row per rating of the
movie. -/
theorem raterRows_length (db : DB) (movie_id : String)
    (hU : db.users.Pairwise (fun a b => a.id ≠ b.id))
    (hFK : ∀ r ∈ db.ratings, ∃ u ∈ db.users, u.id = r.user_id) :
    (raterRows db movie_id).length = (movieRatings db movie_id).length := by
  unfold raterRows
  rw [List.length_flatMap]
  have hmap : List.map
      (List.length ∘ fun r => (db.users.filter (fun u => u.id == r.user_id)).map (fun u => (r, u)))
      (movieRatings db movie_id)
      = List.map (fun _ => 1) (movieRatings db movie_id) := by
    apply List.map_congr_left
    intro r hr
    have hr' : r ∈ db.ratings := (List.mem_filter.mp hr).1
    simp only [Function.comp_apply, List.length_map]
    exact length_filter_userId db.users r.user_id hU (hFK r hr')
  rw [hmap]
  generalize movieRatings db movie_id = l
  induction l with
  | nil => rfl
  | cons r rest ih =>
    simp only [List.map_cons, List.sum_cons, List.length_cons, ih]
    omega

/-- C7: for an existing movie (under unique user ids and rating→user
referential integrity) the six age buckets sum to at most `total_ratings`,
with equality exactly when every rater has a defined age; the four gender
buckets always sum to `total_ratings`; the seven continent buckets sum to
at most `total_ratings`, and a strict gap is realizable. -/
theorem statisticsSums_totalRatings (db : DB) (movie_id : String)
    (h : movieExists db movie_id = true)
    (hU : db.users.Pairwise (fun a b => a.id ≠ b.id))
    (hFK : ∀ r ∈ db.ratings, ∃ u ∈ db.users, u.id = r.user_id) :
    ∃ ms : MovieStatistics, get_movie_statistics db movie_id = .ok ms
      ∧ (ms.age_statistics.under18 + ms.age_statistics.age18to24
          + ms.age_statistics.age25to34 + ms.age_statistics.age35to44
          + ms.age_statistics.age45to54 + ms.age_statistics.age55plus
          ≤ ms.total_ratings)
      ∧ (ms.age_statistics.under18 + ms.age_statistics.age18to24
          + ms.age_statistics.age25to34 + ms.age_statistics.age35to44
          + ms.age_statistics.age45to54 + ms.age_statistics.age55plus
          = ms.total_ratings
          ↔ ∀ ru ∈ raterRows db movie_id, ru.2.age.isSome = true)
      ∧ (ms.gender_statistics.male + ms.gender_statistics.female
          + ms.gender_statistics.other + ms.gender_statistics.not_specified
          = ms.total_ratings)
      ∧ (ms.continent_statistics.africa + ms.continent_statistics.asia
          + ms.continent_statistics.europe + ms.continent_statistics.north_america
          + ms.continent_statistics.south_america + ms.continent_statistics.australia
          + ms.continent_statistics.antarctica
          ≤ ms.total_ratings)
      ∧ (∃ (db2 : DB) (mid2 : String) (ms2 : MovieStatistics),
          get_movie_statistics db2 mid2 = .ok ms2
          ∧ ms2.continent_statistics.africa + ms2.continent_statistics.asia
              + ms2.continent_statistics.europe + ms2.continent_statistics.north_america
              + ms2.continent_statistics.south_america + ms2.continent_statistics.australia
              + ms2.continent_statistics.antarctica
              < ms2.total_ratings) := by
  have hlen := raterRows_length db movie_id hU hFK
  refine ⟨_, get_movie_statistics_ok db movie_id h, ?_, ?_, ?_, ?_, ?_⟩
  · show (raterRows db movie_id).countP _ + _ + _ + _ + _ + _
      ≤ (movieRatings db movie_id).length
    rw [ageSum_eq_countDefined, ← hlen]
    exact List.countP_le_length _
  · show ((raterRows db movie_id).countP _ + _ + _ + _ + _ + _
      = (movieRatings db movie_id).length) ↔ _
    rw [ageSum_eq_countDefined, ← hlen]
    exact List.countP_eq_length
  · show (raterRows db movie_id).countP _ + _ + _ + _
      = (movieRatings db movie_id).length
    rw [genderSum_eq_length, hlen]
  · show (raterRows db movie_id).countP _ + _ + _ + _ + _ + _ + _
      ≤ (movieRatings db movie_id).length
    rw [continentSum_eq_countListed, ← hlen]
    exact List.countP_le_length _
  · exact ⟨⟨[⟨"m1"⟩], [⟨"u3", none, none, none, none⟩], [⟨"r1", "m1", "u3", 5⟩]⟩, "m1", _,
      get_movie_statistics_ok _ "m1" (by decide), by decide⟩

/-- Witness for C7 at `exDB` (its single user trivially satisfies both
schema constraints). -/
theorem statisticsSums_totalRatings_witness :
    ∃ ms : MovieStatistics, get_movie_statistics exDB "m1" = .ok ms
      ∧ (ms.age_statistics.under18 + ms.age_statistics.age18to24
          + ms.age_statistics.age25to34 + ms.age_statistics.age35to44
          + ms.age_statistics.age45to54 + ms.age_statistics.age55plus
          ≤ ms.total_ratings)
      ∧ (ms.age_statistics.under18 + ms.age_statistics.age18to24
          + ms.age_statistics.age25to34 + ms.age_statistics.age35to44
          + ms.age_statistics.age45to54 + ms.age_statistics.age55plus
          = ms.total_ratings
          ↔ ∀ ru ∈ raterRows exDB "m1", ru.2.age.isSome = true)
      ∧ (ms.gender_statistics.male + ms.gender_statistics.female
          + ms.gender_statistics.other + ms.gender_statistics.not_specified
          = ms.total_ratings)
      ∧ (ms.continent_statistics.africa + ms.continent_statistics.asia
          + ms.continent_statistics.europe + ms.continent_statistics.north_america
          + ms.continent_statistics.south_america + ms.continent_statistics.australia
          + ms.continent_statistics.antarctica
          ≤ ms.total_ratings)
      ∧ (∃ (db2 : DB) (mid2 : String) (ms2 : MovieStatistics),
          get_movie_statistics db2 mid2 = .ok ms2
          ∧ ms2.continent_statistics.africa + ms2.continent_statistics.asia
              + ms2.continent_statistics.europe + ms2.continent_statistics.north_america
              + ms2.continent_statistics.south_america + ms2.continent_statistics.australia
              + ms2.continent_statistics.antarctica
              < ms2.total_ratings) :=
  statisticsSums_totalRatings exDB "m1" (by decide)
    (by simp [exDB])
    (by intro r hr; exact ⟨exUser1, by simp [exDB], by
      simp [exDB] at hr
      simp [hr, exUser1, exRating1]⟩)

/-- The failing branch of `get_movie_statistics`. -/
theorem get_movie_statistics_err (db : DB) (movie_id : String)
    (h : movieExists db movie_id = false) :
    get_movie_statistics db movie_id = .error ⟨404, "Movie not found"⟩ := by
  unfold movieExists at h
  unfold get_movie_statistics
  cases hf : db.movies.find? (fun m => m.id == movie_id) with
  | none => rfl
  | some m => rw [hf] at h; simp at h

/-- The successful branch of `get_movie_rating_stats`. -/
theorem get_movie_rating_stats_ok (db : DB) (movie_id : String)
    (h : movieExists db movie_id = true) :
    get_movie_rating_stats db movie_id = .ok {
      movie_id := movie_id
      average_score := floatOrZero (sqlAvg ((movieRatings db movie_id).map (fun r => r.score)))
      total_ratings := (movieRatings db movie_id).length } := by
  unfold movieExists at h
  unfold get_movie_rating_stats
  cases hf : db.movies.find? (fun m => m.id == movie_id) with
  | none => rw [hf] at h; simp at h
  | some m => rfl

/-- The failing branch of `get_movie_rating_stats`. -/
theorem get_movie_rating_stats_err (db : DB) (movie_id : String)
    (h : movieExists db movie_id = false) :
    get_movie_rating_stats db movie_id = .error ⟨404, "Movie not found"⟩ := by
  unfold movieExists at h
  unfold get_movie_rating_stats
  cases hf : db.movies.find? (fun m => m.id == movie_id) with
  | none => rfl
  | some m => rw [hf] at h; simp at h

/-- C8: the lightweight `GET /ratings/movie/{movie_id}/stats` signals 404
exactly when the full statistics endpoint does, and on success returns the
same id, average and count. -/
theorem ratingSummary_matches_statistics (db : DB) (movie_id : String) :
    (∀ e : HTTPException,
        get_movie_rating_stats db movie_id = .error e
          ↔ get_movie_statistics db movie_id = .error e)
    ∧ (∀ ms : MovieStatistics, get_movie_statistics db movie_id = .ok ms →
        get_movie_rating_stats db movie_id
          = .ok ⟨movie_id, ms.average_rating, ms.total_ratings⟩) := by
  by_cases h : movieExists db movie_id = true
  · have h1 := get_movie_statistics_ok db movie_id h
    have h2 := get_movie_rating_stats_ok db movie_id h
    constructor
    · intro e
      rw [h1, h2]
      constructor <;> intro hx <;> exact absurd hx (by simp)
    · intro ms hms
      rw [h1] at hms
      injection hms with hh
      subst hh
      rw [h2]
  · have hfalse : movieExists db movie_id = false := by simpa using h
    have h1 := get_movie_statistics_err db movie_id hfalse
    have h2 := get_movie_rating_stats_err db movie_id hfalse
    constructor
    · intro e
      rw [h1, h2]
      constructor <;> intro hx <;>
        (injection hx with hx; subst hx; rfl)
    · intro ms hms
      rw [h1] at hms
      simp at hms

/-- Witness for C8: the missing-movie case on the empty store and the
success case on `exDB`. -/
theorem ratingSummary_matches_statistics_witness :
    get_movie_rating_stats ⟨[], [], []⟩ "m1" = .error ⟨404, "Movie not found"⟩
    ∧ ∃ ms : MovieStatistics, get_movie_statistics exDB "m1" = .ok ms
        ∧ get_movie_rating_stats exDB "m1"
            = .ok ⟨"m1", ms.average_rating, ms.total_ratings⟩ :=
  ⟨((ratingSummary_matches_statistics ⟨[], [], []⟩ "m1").1 _).mpr (by rfl),
   ⟨_, get_movie_statistics_ok exDB "m1" (by decide),
    (ratingSummary_matches_statistics exDB "m1").2 _
      (get_movie_statistics_ok exDB "m1" (by decide))⟩⟩

/-! ## The country dictionary -/

/-- Lookup in the dict built from grouped keys: present exactly for a
listed, non-empty key, with its grouped value. -/
theorem lookup_buildCountryStats (keys : List String) (f : String → Nat) (c : String) :
    (buildCountryStats (keys.map (fun k => (k, f k)))).lookup c
      = if c ∈ keys ∧ c ≠ "" then some (f c) else none := by
  induction keys with
  | nil => simp [buildCountryStats]
  | cons k ks ih =>
    unfold buildCountryStats at ih ⊢
    rw [List.map_cons, List.filter_cons]
    by_cases hk : k = ""
    · subst hk
      simp only [bne_self_eq_false, Bool.false_eq_true, if_false]
      rw [ih]
      have hcond : (c ∈ "" :: ks ∧ c ≠ "") ↔ (c ∈ ks ∧ c ≠ "") := by
        constructor
        · rintro ⟨hm, hne⟩
          rcases List.mem_cons.mp hm with rfl | hm2
          · exact absurd rfl hne
          · exact ⟨hm2, hne⟩
        · rintro ⟨hm, hne⟩
          exact ⟨List.mem_cons_of_mem _ hm, hne⟩
      rw [if_congr hcond.symm rfl rfl]
    · have hkb : (k != "") = true := by
        simp only [bne_iff_ne, ne_eq]
        exact hk
      rw [hkb]
      simp only [if_true]
      by_cases hc : c = k
      · subst hc
        have : (c == c) = true := by simp
        simp only [List.lookup_cons, this]
        rw [if_pos ⟨List.mem_cons_self c ks, hk⟩]
      · have hcb : (c == k) = false := by
          simp only [beq_eq_false_iff_ne, ne_eq]
          exact hc
        simp only [List.lookup_cons, hcb]
        rw [ih]
        have hcond : (c ∈ k :: ks ∧ c ≠ "") ↔ (c ∈ ks ∧ c ≠ "") := by
          constructor
          · rintro ⟨hm, hne⟩
            rcases List.mem_cons.mp hm with rfl | hm2
            · exact absurd rfl hc
            · exact ⟨hm2, hne⟩
          · rintro ⟨hm, hne⟩
            exact ⟨List.mem_cons_of_mem _ hm, hne⟩
        rw [if_congr hcond.symm rfl rfl]

/-- A key held by no pair of the association list looks up to `none`. -/
theorem lookup_eq_none_of_no_key {l : List (String × Nat)} {k : String}
    (h : ∀ p ∈ l, p.1 ≠ k) : l.lookup k = none := by
  induction l with
  | nil => rfl
  | cons p ps ih =>
    obtain ⟨k1, v1⟩ := p
    have hp : k1 ≠ k := h (k1, v1) (List.mem_cons_self _ _)
    have hkb : (k == k1) = false := by
      simp only [beq_eq_false_iff_ne, ne_eq]
      exact fun hkk => hp hkk.symm
    simp only [List.lookup_cons, hkb]
    exact ih (fun q hq => h q (List.mem_cons_of_mem _ hq))

/-- Filtering to rows with a non-null country does not change the count of
rows carrying one fixed country. -/
theorem countP_country_filter (rows : List (Rating × User)) (c : String) :
    (rows.filter (fun ru => ru.2.country.isSome)).countP (fun ru => ru.2.country == some c)
      = rows.countP (fun ru => ru.2.country == some c) := by
  rw [List.countP_filter]
  exact List.countP_congr (fun ru _ => by cases hco : ru.2.country <;> simp [hco])

/-- The country dict of the statistics response at a non-empty key: present
with the exact rater count when positive, absent when zero. -/
theorem countryStats_lookup (db : DB) (movie_id : String) (c : String) (hc : c ≠ "") :
    (buildCountryStats (country_stats_query db movie_id)).lookup c
      = (if (raterRows db movie_id).countP (fun ru => ru.2.country == some c) = 0
         then none
         else some ((raterRows db movie_id).countP (fun ru => ru.2.country == some c))) := by
  unfold country_stats_query
  rw [lookup_buildCountryStats, countP_country_filter]
  have hmem : c ∈ (((raterRows db movie_id).filter (fun ru => ru.2.country.isSome)).filterMap
        (fun ru => ru.2.country)).dedup
      ↔ 0 < (raterRows db movie_id).countP (fun ru => ru.2.country == some c) := by
    rw [List.mem_dedup, List.mem_filterMap, List.countP_pos_iff]
    constructor
    · rintro ⟨ru, hru, hco⟩
      refine ⟨ru, (List.mem_filter.mp hru).1, ?_⟩
      simp [hco]
    · rintro ⟨ru, hru, hco⟩
      have hco' : ru.2.country = some c := by
        cases hx : ru.2.country <;> rw [hx] at hco <;> simp at hco
        exact congrArg some hco
      exact ⟨ru, List.mem_filter.mpr ⟨hru, by simp [hco']⟩, hco'⟩
  by_cases h0 : (raterRows db movie_id).countP (fun ru => ru.2.country == some c) = 0
  · rw [if_pos h0, if_neg]
    rintro ⟨hm, -⟩
    rw [hmem] at hm
    omega
  · rw [if_neg h0, if_pos ⟨hmem.mpr (by omega), hc⟩]

/-- Example rater whose country is the non-null empty string. -/
def exUserEmptyCountry : User := ⟨"u2", some 30, some "male", some "", some "europe"⟩

/-- Example store with one movie and one rater whose country is `""`. -/
def exDBEmptyCountry : DB := ⟨[⟨"m1"⟩], [exUserEmptyCountry], [⟨"r2", "m1", "u2", 6⟩]⟩

/-- C6 counterexample: a rater whose country is the non-null string `""`
contributes to no entry — `countryStatistics` comes back empty although the
movie has a rater with a non-null country. -/
theorem countryStatistics_nonNull_counterexample :
    exUserEmptyCountry.country = some ""
    ∧ (raterRows exDBEmptyCountry "m1").countP
        (fun ru => ru.2.country == some "") = 1
    ∧ Except.map (fun ms => ms.country_statistics)
        (get_movie_statistics exDBEmptyCountry "m1") = .ok []
    ∧ Except.map (fun ms => ms.country_statistics.lookup "")
        (get_movie_statistics exDBEmptyCountry "m1") = .ok none :=
  ⟨rfl, rfl, rfl, rfl⟩

/-- C6 amended: for an existing movie, `countryStatistics` maps every
non-null, **non-empty** country with at least one rater to its exact rater
count; countries with zero raters are absent; null-country raters
contribute to no entry; the empty string never appears as a key. -/
theorem countryStatistics_map (db : DB) (movie_id : String)
    (h : movieExists db movie_id = true) :
    ∃ ms : MovieStatistics, get_movie_statistics db movie_id = .ok ms
      ∧ (∀ c : String, c ≠ "" →
          ms.country_statistics.lookup c
            = (if (raterRows db movie_id).countP (fun ru => ru.2.country == some c) = 0
               then none
               else some ((raterRows db movie_id).countP
                 (fun ru => ru.2.country == some c))))
      ∧ (∀ p ∈ ms.country_statistics, p.1 ≠ "")
      ∧ ms.country_statistics.lookup "" = none := by
  refine ⟨_, get_movie_statistics_ok db movie_id h, ?_, ?_, ?_⟩
  · intro c hc
    exact countryStats_lookup db movie_id c hc
  · intro p hp
    have := (List.mem_filter.mp hp).2
    simpa [bne_iff_ne] using this
  · apply lookup_eq_none_of_no_key
    intro p hp
    have := (List.mem_filter.mp hp).2
    simpa [bne_iff_ne] using this

/-- Witness for the amended C6 at `exDBEmptyCountry`. -/
theorem countryStatistics_map_witness :
    ∃ ms : MovieStatistics, get_movie_statistics exDBEmptyCountry "m1" = .ok ms
      ∧ (∀ c : String, c ≠ "" →
          ms.country_statistics.lookup c
            = (if (raterRows exDBEmptyCountry "m1").countP
                   (fun ru => ru.2.country == some c) = 0
               then none
               else some ((raterRows exDBEmptyCountry "m1").countP
                 (fun ru => ru.2.country == some c))))
      ∧ (∀ p ∈ ms.country_statistics, p.1 ≠ "")
      ∧ ms.country_statistics.lookup "" = none :=
  countryStatistics_map exDBEmptyCountry "m1" (by decide)

/-- C10: the empty-string country is non-null yet never becomes a key of
`countryStatistics` and has no entry, while its raters still count toward
`total_ratings` (which counts every rating of the movie). -/
theorem countryStatistics_emptyString_excluded (db : DB) (movie_id : String)
    (h : movieExists db movie_id = true) :
    ∃ ms : MovieStatistics, get_movie_statistics db movie_id = .ok ms
      ∧ (∀ p ∈ ms.country_statistics, p.1 ≠ "")
      ∧ ms.country_statistics.lookup "" = none
      ∧ ms.total_ratings = (movieRatings db movie_id).length := by
  refine ⟨_, get_movie_statistics_ok db movie_id h, ?_, ?_, rfl⟩
  · intro p hp
    have := (List.mem_filter.mp hp).2
    simpa [bne_iff_ne] using this
  · apply lookup_eq_none_of_no_key
    intro p hp
    have := (List.mem_filter.mp hp).2
    simpa [bne_iff_ne] using this

/-- Witness for C10 at `exDBEmptyCountry`: its single rater has country
`""`, appears in `total_ratings`, and the dict is empty. -/
theorem countryStatistics_emptyString_excluded_witness :
    ∃ ms : MovieStatistics, get_movie_statistics exDBEmptyCountry "m1" = .ok ms
      ∧ (∀ p ∈ ms.country_statistics, p.1 ≠ "")
      ∧ ms.country_statistics.lookup "" = none
      ∧ ms.total_ratings = (movieRatings exDBEmptyCountry "m1").length :=
  countryStatistics_emptyString_excluded exDBEmptyCountry "m1" (by decide)

/-! ## Create-or-update rating -/

/-- Two members of a pairwise-constrained list that falsify the relation in
both directions are the same element. -/
theorem pairwise_mem_eq {α : Type} {R : α → α → Prop} {l : List α}
    (h : l.Pairwise R) {a b : α} (ha : a ∈ l) (hb : b ∈ l)
    (hab : ¬R a b) (hba : ¬R b a) : a = b := by
  induction l with
  | nil => cases ha
  | cons x xs ih =>
    have hx := List.pairwise_cons.mp h
    rcases List.mem_cons.mp ha with rfl | ha2
    · rcases List.mem_cons.mp hb with rfl | hb2
      · rfl
      · exact absurd (hx.1 b hb2) hab
    · rcases List.mem_cons.mp hb with rfl | hb2
      · exact absurd (hx.1 a ha2) hba
      · exact ih hx.2 ha2 hb2

/-- The one-rating-per-(user, movie) relation of the uniqueness constraint
`uq_user_movie_rating`. -/
def distinctPair (a b : Rating) : Prop :=
  ¬(a.user_id = b.user_id ∧ a.movie_id = b.movie_id)

/-- C9: on a store satisfying the (user, movie) uniqueness invariant (and
unique rating primary keys), upserting a rating for an existing movie
leaves exactly one rating for the pair, carrying the submitted score; an
existing rating is updated in place (same row ids), otherwise exactly one
row is appended; the uniqueness invariant is preserved. -/
theorem createOrUpdateRating_upsert (db : DB) (rating_in : RatingCreate)
    (uid freshId : String)
    (hinv : db.ratings.Pairwise distinctPair)
    (hids : db.ratings.Pairwise (fun a b => a.id ≠ b.id))
    (hm : movieExists db rating_in.movie_id = true) :
    ∃ (db2 : DB) (ret : Rating),
      create_or_update_rating db rating_in uid freshId = .ok (db2, ret)
      ∧ ret.movie_id = rating_in.movie_id ∧ ret.user_id = uid
      ∧ ret.score = rating_in.score
      ∧ db2.ratings.countP
          (fun r => r.movie_id == rating_in.movie_id && r.user_id == uid) = 1
      ∧ (∀ r ∈ db2.ratings,
          r.movie_id = rating_in.movie_id → r.user_id = uid →
            r.score = rating_in.score)
      ∧ ((∃ r0 ∈ db.ratings, r0.movie_id = rating_in.movie_id ∧ r0.user_id = uid) →
          db2.ratings.map (fun r => r.id) = db.ratings.map (fun r => r.id))
      ∧ ((¬∃ r0 ∈ db.ratings, r0.movie_id = rating_in.movie_id ∧ r0.user_id = uid) →
          db2.ratings.length = db.ratings.length + 1)
      ∧ db2.ratings.Pairwise distinctPair := by
  unfold movieExists at hm
  unfold create_or_update_rating
  cases hf : db.movies.find? (fun m => m.id == rating_in.movie_id) with
  | none => rw [hf] at hm; simp at hm
  | some m =>
    cases hex : db.ratings.find?
        (fun r => r.movie_id == rating_in.movie_id && r.user_id == uid) with
    | some existing =>
      have hmem : existing ∈ db.ratings := List.mem_of_find?_eq_some hex
      have hpe := List.find?_some hex
      have hpe' : existing.movie_id = rating_in.movie_id ∧ existing.user_id = uid := by
        simp only [Bool.and_eq_true, beq_iff_eq] at hpe
        exact hpe
      -- a member matching the pair is `existing`
      have huniq : ∀ r ∈ db.ratings,
          r.movie_id = rating_in.movie_id → r.user_id = uid → r = existing := by
        intro r hr h1 h2
        refine pairwise_mem_eq hinv hr hmem ?_ ?_
        · intro hd
          exact hd ⟨h2.trans hpe'.2.symm, h1.trans hpe'.1.symm⟩
        · intro hd
          exact hd ⟨hpe'.2.trans h2.symm, hpe'.1.trans h1.symm⟩
      -- a member with `existing`'s id is `existing`
      have hiduniq : ∀ r ∈ db.ratings, r.id = existing.id → r = existing := by
        intro r hr h1
        refine pairwise_mem_eq hids hr hmem (by simpa using h1) (by simp [h1])
      refine ⟨_, _, rfl, hpe'.1, hpe'.2, rfl, ?_, ?_, ?_, ?_, ?_⟩
      · -- exactly one matching row after the in-place update
        rw [List.countP_map]
        have : ∀ r ∈ db.ratings,
            ((fun r => r.movie_id == rating_in.movie_id && r.user_id == uid) ∘
              (fun r => if r.id == existing.id then
                { existing with score := rating_in.score } else r)) r
              = (r == existing) := by
          intro r hr
          simp only [Function.comp_apply]
          by_cases hid : r.id = existing.id
          · have hre : r = existing := hiduniq r hr hid
            subst hre
            simp [hpe'.1, hpe'.2]
          · have : (r.id == existing.id) = false := by
              simp only [beq_eq_false_iff_ne, ne_eq]
              exact hid
            rw [this]
            simp only [Bool.false_eq_true, if_false]
            by_cases hp : r.movie_id = rating_in.movie_id ∧ r.user_id = uid
            · exact absurd (huniq r hr hp.1 hp.2) (fun hre => hid (hre ▸ rfl))
            · have h1 : (r.movie_id == rating_in.movie_id && r.user_id == uid) = false := by
                simp only [Bool.and_eq_false_iff, beq_eq_false_iff_ne, ne_eq]
                by_cases hq : r.movie_id = rating_in.movie_id
                · exact Or.inr (fun h2 => hp ⟨hq, h2⟩)
                · exact Or.inl hq
              have h2 : (r == existing) = false := by
                simp only [beq_eq_false_iff_ne, ne_eq]
                exact fun hre => hid (hre ▸ rfl)
              rw [h1, h2]
        rw [List.countP_congr (fun x hx => by rw [this x hx]), ← List.count_eq_countP]
        have hnodup : db.ratings.Nodup :=
          hids.imp (fun hne => fun he => hne (he ▸ rfl))
        exact List.count_eq_one_of_mem hnodup hmem
      · -- every matching row carries the new score
        intro r hr h1 h2
        rcases List.mem_map.mp hr with ⟨r0, hr0, hfr⟩
        by_cases hid : r0.id = existing.id
        · have : (r0.id == existing.id) = true := by simp [hid]
          rw [this] at hfr
          simp only [if_true] at hfr
          exact hfr ▸ rfl
        · have : (r0.id == existing.id) = false := by
            simp only [beq_eq_false_iff_ne, ne_eq]
            exact hid
          rw [this] at hfr
          simp only [Bool.false_eq_true, if_false] at hfr
          subst hfr
          exact absurd (huniq r0 hr0 h1 h2) (fun hre => hid (hre ▸ rfl))
      · -- row ids unchanged: updated in place
        intro _
        rw [List.map_map]
        apply List.map_congr_left
        intro r hr
        simp only [Function.comp_apply]
        by_cases hid : r.id = existing.id
        · have : (r.id == existing.id) = true := by simp [hid]
          rw [this]
          simpa using hid.symm
        · have : (r.id == existing.id) = false := by
            simp only [beq_eq_false_iff_ne, ne_eq]
            exact hid
          rw [this]
          simp
      · -- the pair was present, so the no-previous-rating case is vacuous
        intro hno
        exact absurd ⟨existing, hmem, hpe'.1, hpe'.2⟩ hno
      · -- invariant preserved: user/movie columns are untouched
        rw [List.pairwise_map]
        refine hinv.imp_of_mem ?_
        intro a b ha hb hd
        unfold distinctPair at hd ⊢
        by_cases hia : a.id = existing.id
        · have hae : a = existing := hiduniq a ha hia
          subst hae
          by_cases hib : b.id = a.id
          · have hbe : b = a := hiduniq b hb hib
            subst hbe
            simp at hd
          · have h1 : (a.id == a.id) = true := by simp
            have h2 : (b.id == a.id) = false := by
              simp only [beq_eq_false_iff_ne, ne_eq]
              exact hib
            rw [h1, h2]
            simpa using hd
        · have h1 : (a.id == existing.id) = false := by
            simp only [beq_eq_false_iff_ne, ne_eq]
            exact hia
          rw [h1]
          by_cases hib : b.id = existing.id
          · have hbe : b = existing := hiduniq b hb hib
            subst hbe
            have h2 : (b.id == b.id) = true := by simp
            rw [h2]
            simpa using hd
          · have h2 : (b.id == existing.id) = false := by
              simp only [beq_eq_false_iff_ne, ne_eq]
              exact hib
            rw [h2]
            simpa using hd
    | none =>
      have hnone : ∀ r ∈ db.ratings,
          ¬(r.movie_id == rating_in.movie_id && r.user_id == uid) = true :=
        List.find?_eq_none.mp hex
      refine ⟨_, _, rfl, rfl, rfl, rfl, ?_, ?_, ?_, ?_, ?_⟩
      · rw [List.countP_append]
        have h0 : db.ratings.countP
            (fun r => r.movie_id == rating_in.movie_id && r.user_id == uid) = 0 := by
          rw [List.countP_eq_zero]
          exact hnone
        rw [h0]
        simp
      · intro r hr h1 h2
        rcases List.mem_append.mp hr with hr1 | hr2
        · exact absurd (by simp [h1, h2]) (hnone r hr1)
        · rcases List.mem_singleton.mp hr2 with rfl
          rfl
      · rintro ⟨r0, hr0, h1, h2⟩
        exact absurd (by simp [h1, h2]) (hnone r0 hr0)
      · intro _
        simp
      · rw [List.pairwise_append]
        refine ⟨hinv, List.pairwise_singleton _ _, ?_⟩
        intro a ha b hb
        rcases List.mem_singleton.mp hb with rfl
        unfold distinctPair
        rintro ⟨h1, h2⟩
        exact hnone a ha (by simp [h1, h2])

/-- Witness for C9 at `exDB`: `exUser1` re-rates `"m1"` (update branch),
also exercising the insert branch indirectly through the theorem's other
conjuncts. -/
theorem createOrUpdateRating_upsert_witness :
    ∃ (db2 : DB) (ret : Rating),
      create_or_update_rating exDB ⟨"m1", 3⟩ "u1" "r9" = .ok (db2, ret)
      ∧ ret.movie_id = "m1" ∧ ret.user_id = "u1"
      ∧ ret.score = 3
      ∧ db2.ratings.countP (fun r => r.movie_id == "m1" && r.user_id == "u1") = 1
      ∧ (∀ r ∈ db2.ratings,
          r.movie_id = "m1" → r.user_id = "u1" → r.score = 3)
      ∧ ((∃ r0 ∈ exDB.ratings, r0.movie_id = "m1" ∧ r0.user_id = "u1") →
          db2.ratings.map (fun r => r.id) = exDB.ratings.map (fun r => r.id))
      ∧ ((¬∃ r0 ∈ exDB.ratings, r0.movie_id = "m1" ∧ r0.user_id = "u1") →
          db2.ratings.length = exDB.ratings.length + 1)
      ∧ db2.ratings.Pairwise distinctPair :=
  createOrUpdateRating_upsert exDB ⟨"m1", 3⟩ "u1" "r9"
    (by simp [exDB]) (by simp [exDB]) (by decide)
